import Mathlib

/-!
Verification development for the diarum AI-chat core (Go sources under
internal/chat, internal/config, internal/api and the embedding package).

Modelling conventions:
- Go strings are modelled as Lean `String` (a packed list of characters);
  the Go standard-library helpers strings.HasPrefix / TrimPrefix /
  TrimSuffix are modelled character-wise on `String.data`.
- External collaborators (the JSON codec, the HTTP transport, the
  PocketBase record store, the defaults table) are passed in as explicit
  parameters or as fields of an environment record, so every function here
  is a pure, executable transcription of the corresponding Go function.
- `logger.Warn`-style observability is modelled by counting the warn
  events a run would emit.
-/

namespace Diaria

/-- Model of Go strings.HasPrefix: character-wise prefix test. -/
def hasPrefix (pre s : String) : Bool :=
  pre.data.isPrefixOf s.data

/-- Model of Go strings.TrimPrefix: drops the prefix when present,
otherwise returns the string unchanged. -/
def trimPrefix (s pre : String) : String :=
  if hasPrefix pre s then ⟨s.data.drop pre.data.length⟩ else s

/-- Model of Go strings.TrimSuffix: drops one copy of the suffix when
present, otherwise returns the string unchanged. -/
def trimSuffix (s suf : String) : String :=
  if suf.data.isSuffixOf s.data then ⟨s.data.take (s.data.length - suf.data.length)⟩ else s

/-- Concatenation of a list of strings, in order; the final content of a
Go strings.Builder that received these writes. -/
def concatAll : List String → String
  | [] => ""
  | s :: rest => s ++ concatAll rest

/-- Incremental delta of a streamed chunk choice
(`ChatStreamResponse.Choices[i].Delta` in internal/chat/service.go). -/
structure Delta where
  role : String
  content : String
deriving DecidableEq, Repr

/-- One choice of a streamed chunk (`ChatStreamResponse.Choices[i]`). -/
structure StreamChoice where
  index : Nat
  delta : Delta
  finishReason : Option String
deriving DecidableEq, Repr

/-- A decoded streaming response chunk (`ChatStreamResponse` in
internal/chat/service.go). -/
structure ChatStreamResponse where
  id : String
  object : String
  created : Int
  model : String
  choices : List StreamChoice
deriving DecidableEq, Repr

/-- Errors surfaced by the chat service, one constructor per error
construction site of internal/chat/service.go (the Go code builds them
with fmt.Errorf; the constructors carry the data interpolated there). -/
inductive ChatError where
  | configMissing (field : String)
  | transportFail
  | badStatus (status : Nat) (body : String)
  | streamInterrupted
deriving DecidableEq, Repr

/-- The SSE data-line marker used by processStreamResponse. -/
def dataMarker : String := "data: "

/-- Mutable state of the processStreamResponse loop: the strings.Builder
content, the content events written to the StreamWriter so far (each is
written as an SSE event carrying that content), and the number of
logger.Warn calls emitted for malformed chunks. -/
structure StreamState where
  fullResponse : String
  events : List String
  warnCount : Nat
deriving DecidableEq, Repr

/-- Initial loop state: empty builder, nothing written, no warnings. -/
def StreamState.init : StreamState := ⟨"", [], 0⟩

/-- Pointwise combination of two loop states: used to factor a run out of
an arbitrary starting state through a run from the initial state. -/
def StreamState.add (a b : StreamState) : StreamState :=
  ⟨a.fullResponse ++ b.fullResponse, a.events ++ b.events, a.warnCount + b.warnCount⟩

/-- The scanning loop of processStreamResponse (internal/chat/service.go,
lines 260-290), transcribed over the list of lines the scanner yields.
`decode` models json.Unmarshal into ChatStreamResponse (none = decode
error). Returns the final state and whether the loop exited via the
`data: [DONE]` break (true) or by exhausting the input (false). -/
def processStream (decode : String → Option ChatStreamResponse) :
    List String → StreamState → StreamState × Bool
  | [], st => (st, false)
  | line :: rest, st =>
    if hasPrefix dataMarker line then
      let data := trimPrefix line dataMarker
      if data = "[DONE]" then (st, true)
      else
        match decode data with
        | none => processStream decode rest { st with warnCount := st.warnCount + 1 }
        | some chunk =>
          match chunk.choices with
          | [] => processStream decode rest st
          | choice :: _ =>
            let content := choice.delta.content
            if content = "" then processStream decode rest st
            else
              processStream decode rest
                { st with
                    fullResponse := st.fullResponse ++ content,
                    events := st.events ++ [content] }
    else processStream decode rest st

/-- processStreamResponse (internal/chat/service.go, lines 256-297): runs
the scanning loop from the initial state over the lines the upstream body
yields; `readErr` states that reading past the delivered lines fails, in
which case scanner.Err reports it after the loop — unless the loop broke
at the `[DONE]` sentinel first, since then the failing read was never
attempted. On a read error the partial builder content is returned
together with the wrapped error. -/
def processStreamResponse (decode : String → Option ChatStreamResponse)
    (lines : List String) (readErr : Bool) : StreamState × Option ChatError :=
  let r := processStream decode lines .init
  if !r.2 && readErr then (r.1, some .streamInterrupted) else (r.1, none)

/-- Specification-side view of a stream: the first-choice delta contents
of every well-formed `data: ` chunk before the `[DONE]` sentinel, in
order, including empty ones. -/
def deltaContents (decode : String → Option ChatStreamResponse) : List String → List String
  | [] => []
  | line :: rest =>
    if hasPrefix dataMarker line then
      let data := trimPrefix line dataMarker
      if data = "[DONE]" then []
      else
        match decode data with
        | none => deltaContents decode rest
        | some chunk =>
          match chunk.choices with
          | [] => deltaContents decode rest
          | choice :: _ => choice.delta.content :: deltaContents decode rest
    else deltaContents decode rest

/-- Model of a Go `any` value as held by a user_settings record's value
field after PocketBase materialises it: nil, a plain string, a raw JSON
blob (types.JsonRaw), a boolean, a number, or anything else. -/
inductive GoValue where
  | vnull
  | vstr (s : String)
  | vraw (raw : String)
  | vbool (b : Bool)
  | vint (n : Int)
  | vother
deriving DecidableEq, Repr

/-- One row of the user_settings collection. -/
structure SettingRecord where
  user : String
  key : String
  value : GoValue
deriving DecidableEq, Repr

/-- Model of Dao.FindFirstRecordByFilter on user_settings with the filter
`user = {:user} && key = {:key}`: the first matching row, if any. -/
def findFirstSetting (store : List SettingRecord) (user key : String) : Option SettingRecord :=
  store.find? (fun r => r.user == user && r.key == key)

namespace ConfigService

/-- ConfigService.Get (internal/config/config.go, lines 24-45): looks the
(user, key) row up; when the lookup fails it falls back to the defaults
table and still reports a nil error. `getDefault` models the GetDefault
function, whose body lives outside the sources under verification. -/
def Get (getDefault : String → GoValue) (store : List SettingRecord)
    (userId key : String) : GoValue × Option String :=
  match findFirstSetting store userId key with
  | none => (getDefault key, none)
  | some r => (r.value, none)

/-- ConfigService.GetString (internal/config/config.go, lines 48-70):
reads through Get, then coerces: nil becomes "", a types.JsonRaw value is
decoded by json.Unmarshal into a string (`jdec`, none = decode failure,
which also becomes "" with a nil error), a plain string passes through,
and every other dynamic type becomes "". -/
def GetString (getDefault : String → GoValue) (jdec : String → Option String)
    (store : List SettingRecord) (userId key : String) : String × Option String :=
  match ConfigService.Get getDefault store userId key with
  | (_, some e) => ("", some e)
  | (value, none) =>
    match value with
    | .vnull => ("", none)
    | .vraw raw =>
      match jdec raw with
      | none => ("", none)
      | some s => (s, none)
    | .vstr s => (s, none)
    | _ => ("", none)

end ConfigService

/-- One row of the ai_messages collection. `created` is the creation
timestamp the canonical history order is taken from. -/
structure MsgRecord where
  conversation : String
  role : String
  content : String
  created : Nat
deriving DecidableEq, Repr

/-- Creation-timestamp order on message rows: the order the sort key
`created` of GetConversationHistory induces. -/
def createdLE (a b : MsgRecord) : Prop := a.created ≤ b.created

instance : DecidableRel createdLE :=
  fun a b => inferInstanceAs (Decidable (a.created ≤ b.created))

instance : IsTotal MsgRecord createdLE := ⟨fun a b => Nat.le_total a.created b.created⟩

instance : IsTrans MsgRecord createdLE := ⟨fun _ _ _ h h2 => Nat.le_trans h h2⟩

/-- Model of Dao.FindRecordsByFilter on ai_messages with filter
`conversation = {:conv}`, sort "created" (ascending), the given limit and
offset 0: the matching rows sorted ascending by created, truncated to the
limit. -/
def findMessages (store : List MsgRecord) (conversationID : String) (limit : Nat) :
    List MsgRecord :=
  (List.insertionSort createdLE (store.filter (fun m => m.conversation == conversationID))).take
    limit

/-- One chat turn as sent to the provider (`ChatMessage` in
internal/chat/service.go). -/
structure ChatMessage where
  role : String
  content : String
deriving DecidableEq, Repr

/-- GetConversationHistory (internal/chat/service.go, lines 110-131): the
filtered, created-sorted, limited rows mapped to their role/content
pairs. The database read is modelled as succeeding; StreamChat's handling
of a failing read is modelled by the historyOk flag of ChatEnv. -/
def GetConversationHistory (store : List MsgRecord) (conversationID : String)
    (limit : Nat) : List ChatMessage :=
  (findMessages store conversationID limit).map (fun m => ⟨m.role, m.content⟩)

/-- One retrieval hit (`DiarySearchResult` of the embedding package; the
similarity score, a Go float64, is modelled as a rational — no claim here
depends on its arithmetic). -/
structure DiarySearchResult where
  id : String
  date : String
  mood : String
  weather : String
  content : String
  similarity : Rat
deriving DecidableEq, Repr

/-- The fixed persona preamble of buildSystemPrompt. -/
def promptPreamble : String :=
  "You are a helpful AI assistant for a personal diary application called Diaria. " ++
  "You help users reflect on their diary entries, summarize their experiences, " ++
  "and provide insights based on their personal journal.\n\n"

/-- The notice buildSystemPrompt emits when no relevant entries were
found. -/
def noEntriesNotice : String :=
  "No relevant diary entries were found for this query. " ++
  "You can still help the user with general questions about journaling.\n"

/-- Rendering of one retrieved entry inside the system prompt, with its
1-based position. -/
def renderDiary (i : Nat) (d : DiarySearchResult) : String :=
  "--- Diary Entry " ++ toString (i + 1) ++ " (Date: " ++ d.date ++ ") ---\n" ++
  (if d.mood = "" then "" else "Mood: " ++ d.mood ++ "\n") ++
  (if d.weather = "" then "" else "Weather: " ++ d.weather ++ "\n") ++
  "Content:\n" ++ d.content ++ "\n\n"

/-- Rendering of the retrieved entries in order, numbering from the given
index. -/
def renderDiaries : Nat → List DiarySearchResult → String
  | _, [] => ""
  | i, d :: rest => renderDiary i d ++ renderDiaries (i + 1) rest

/-- buildSystemPrompt (internal/chat/service.go, lines 81-107): persona
preamble, then either a block per retrieved entry framed by the usage
instructions, or the explicit no-relevant-entries notice. -/
def buildSystemPrompt (diaries : List DiarySearchResult) : String :=
  if diaries.length > 0 then
    promptPreamble ++ "Here are relevant diary entries from the user:\n\n" ++
      renderDiaries 0 diaries ++
      "Use these diary entries to provide personalized and relevant responses. " ++
      "When referencing specific entries, mention the date.\n"
  else
    promptPreamble ++ noEntriesNotice

/-- Request body of the streaming completion call (`ChatRequest` in
internal/chat/service.go). -/
structure ChatRequest where
  model : String
  messages : List ChatMessage
  stream : Bool
deriving DecidableEq, Repr

/-- One HTTP request callStreamingAPI issues: target URL, bearer
authorization header value, and the marshalled body. -/
structure ChatHttpRequest where
  url : String
  bearer : String
  body : ChatRequest
deriving DecidableEq, Repr

/-- Behaviour of the provider endpoint for one chat call: whether
client.Do succeeds, the response status, the body read on a non-200
status, the SSE lines the 200 body yields, and whether reading past them
fails. -/
structure ProviderHttp where
  transportOk : Bool
  status : Nat
  respBody : String
  streamLines : List String
  readErr : Bool

/-- Outcome of callStreamingAPI: returned text, returned error, the
content events written to the StreamWriter, the malformed-chunk warnings,
and the provider HTTP requests issued (in order). -/
structure CallResult where
  text : String
  error : Option ChatError
  events : List String
  warnCount : Nat
  requests : List ChatHttpRequest
deriving Repr

/-- callStreamingAPI (internal/chat/service.go, lines 216-253): builds the
completion URL from the trailing-slash-normalized base URL, issues one
bearer-authenticated POST with the marshalled stream=true body
(json.Marshal of ChatRequest cannot fail and is left implicit), fails on
transport error, captures the body of a non-200 response in the error,
and otherwise hands the body to processStreamResponse. -/
def callStreamingAPI (decode : String → Option ChatStreamResponse) (http : ProviderHttp)
    (baseURL apiKey model : String) (messages : List ChatMessage) : CallResult :=
  let url := trimSuffix baseURL "/" ++ "/v1/chat/completions"
  let req : ChatHttpRequest := ⟨url, "Bearer " ++ apiKey, ⟨model, messages, true⟩⟩
  if !http.transportOk then
    ⟨"", some .transportFail, [], 0, [req]⟩
  else if http.status ≠ 200 then
    ⟨"", some (.badStatus http.status http.respBody), [], 0, [req]⟩
  else
    let r := processStreamResponse decode http.streamLines http.readErr
    ⟨r.1.fullResponse, r.2, r.1.events, r.1.warnCount, [req]⟩

/-- Environment of one StreamChat call: the configuration store and the
models of its external collaborators — the defaults table, the
json.Unmarshal string decoder, whether an embedding service was injected,
the outcome QuerySimilar would produce, the ai_messages store, whether
the history read succeeds, the provider endpoint behaviour, and the chunk
decoder. -/
structure ChatEnv where
  settings : List SettingRecord
  getDefault : String → GoValue
  jdec : String → Option String
  hasEmbedding : Bool
  queryResult : Except String (List DiarySearchResult)
  msgStore : List MsgRecord
  historyOk : Bool
  http : ProviderHttp
  decode : String → Option ChatStreamResponse

/-- Observable outcome of StreamChat: the returned text, referenced entry
identifiers and error, together with the content events the StreamWriter
received, the provider requests issued, and the number of QuerySimilar
calls made. -/
structure StreamChatResult where
  fullText : String
  referenced : List String
  error : Option ChatError
  events : List String
  requests : List ChatHttpRequest
  retrievalCalls : Nat
deriving Repr

/-- StreamChat (internal/chat/service.go, lines 157-213): reads the three
AI settings through ConfigService.GetString and fails on the first blank
one before any retrieval or provider call; queries the top-5 relevant
entries when an embedding service is present, degrading a retrieval error
to no context; builds system prompt + up-to-20-message history + the new
user message; delegates to callStreamingAPI; and on a streaming error
returns empty text and nil references alongside the error. -/
def StreamChat (env : ChatEnv) (userID conversationID message : String) : StreamChatResult :=
  let apiKey :=
    (ConfigService.GetString env.getDefault env.jdec env.settings userID "ai.api_key").1
  if apiKey = "" then ⟨"", [], some (.configMissing "ai.api_key"), [], [], 0⟩
  else
    let baseURL :=
      (ConfigService.GetString env.getDefault env.jdec env.settings userID "ai.base_url").1
    if baseURL = "" then ⟨"", [], some (.configMissing "ai.base_url"), [], [], 0⟩
    else
      let chatModel :=
        (ConfigService.GetString env.getDefault env.jdec env.settings userID "ai.chat_model").1
      if chatModel = "" then ⟨"", [], some (.configMissing "ai.chat_model"), [], [], 0⟩
      else
        let retrievalCalls := if env.hasEmbedding then 1 else 0
        let diaries : List DiarySearchResult :=
          if env.hasEmbedding then
            match env.queryResult with
            | .error _ => []
            | .ok ds => ds
          else []
        let referencedDiaryIDs : List String :=
          if env.hasEmbedding then
            match env.queryResult with
            | .error _ => []
            | .ok ds => ds.map (fun d => d.id)
          else []
        let history :=
          if env.historyOk then GetConversationHistory env.msgStore conversationID 20 else []
        let messages :=
          ChatMessage.mk "system" (buildSystemPrompt diaries) ::
            history ++ [ChatMessage.mk "user" message]
        let r := callStreamingAPI env.decode env.http baseURL apiKey chatModel messages
        match r.error with
        | some e => ⟨"", [], some e, r.events, r.requests, retrievalCalls⟩
        | none => ⟨r.text, referencedDiaryIDs, none, r.events, r.requests, retrievalCalls⟩

/-- One model listed by the provider (`ModelInfo` in the API layer). -/
structure ModelInfo where
  id : String
  object : String
  created : Int
  ownedBy : String
deriving DecidableEq, Repr

/-- Decoded body of the /v1/models endpoint (`ModelsResponse`). -/
structure ModelsResponse where
  object : String
  data : List ModelInfo
deriving DecidableEq, Repr

/-- The GET request fetchModels issues: URL, bearer authorization header
value, content type. -/
structure HttpRequest where
  method : String
  url : String
  bearer : String
  contentType : String
deriving DecidableEq, Repr

/-- An HTTP response as fetchModels observes it. -/
structure HttpResponse where
  status : Nat
  body : String
deriving DecidableEq, Repr

/-- Errors of fetchModels, one constructor per construction site. -/
inductive FetchError where
  | transportFail
  | badStatus (status : Nat) (body : String)
  | decodeFail
deriving DecidableEq, Repr

/-- The request fetchModels builds for a base URL and key: GET on the
trailing-slash-normalized base URL joined with /v1/models, bearer
authorization, JSON content type. -/
def modelsRequest (baseURL apiKey : String) : HttpRequest :=
  ⟨"GET", trimSuffix baseURL "/" ++ "/v1/models", "Bearer " ++ apiKey, "application/json"⟩

/-- fetchModels (API layer, lines 214-247): normalizes the base URL,
issues the bearer-authenticated GET (`doReq` models the HTTP client, none
= transport failure), surfaces non-200 statuses as an error carrying
status and body, decodes the models list on success (`mdec` models
json.Decoder.Decode), and returns the decoded data. -/
def fetchModels (doReq : HttpRequest → Option HttpResponse)
    (mdec : String → Option ModelsResponse) (baseURL apiKey : String) :
    Except FetchError (List ModelInfo) :=
  match doReq (modelsRequest baseURL apiKey) with
  | none => .error .transportFail
  | some resp =>
    if resp.status ≠ 200 then .error (.badStatus resp.status resp.body)
    else
      match mdec resp.body with
      | none => .error .decodeFail
      | some mr => .ok mr.data

/-- One journal entry as the incremental build sees it. -/
structure Entry where
  id : String
  content : String
deriving DecidableEq, Repr

/-- One stored embedding row: entry identifier, the content-hash recorded
when the vector was computed, the vector, and the embedding model. -/
structure EmbRecord where
  entryId : String
  hash : String
  vector : List Rat
  modelId : String
deriving DecidableEq, Repr

/-- Counters and call transcript of one incremental build:
processed/failed/skipped/unchanged, the entries the embedding provider
was invoked for (in order), and the entries whose records were upserted. -/
structure BuildIncrementalResult where
  processed : Nat
  failed : Nat
  skipped : Nat
  unchanged : Nat
  embeddedIds : List String
  upsertedIds : List String
deriving DecidableEq, Repr

/-- Modelled from the spec: EmbeddingService.BuildIncrementalVectors is
not among the sources under verification (only its HTTP caller is), so
this follows the specification of BuildIncremental: for each entry of the
owner, compute the content-hash; if no EmbeddingRecord exists for the
entry or the stored hash differs, re-embed and upsert (processed on
success, failed on a provider error); otherwise count it unchanged and
make no provider call. The skipped counter exists in the result shape;
the BuildIncremental contract routes every entry through the hash check
and gives it no source, so it stays zero. `hashFn` models the content
digest and `embed` the provider's embedding call. -/
def BuildIncremental (hashFn : String → String)
    (embed : String → Except String (List Rat)) (records : List EmbRecord) :
    List Entry → BuildIncrementalResult
  | [] => ⟨0, 0, 0, 0, [], []⟩
  | e :: rest =>
    let r := BuildIncremental hashFn embed records rest
    let stored := (records.find? (fun rec => rec.entryId == e.id)).map (fun rec => rec.hash)
    if stored = some (hashFn e.content) then
      { r with unchanged := r.unchanged + 1 }
    else
      match embed e.content with
      | .ok _ =>
        { r with
            processed := r.processed + 1,
            embeddedIds := e.id :: r.embeddedIds,
            upsertedIds := e.id :: r.upsertedIds }
      | .error _ =>
        { r with
            failed := r.failed + 1,
            embeddedIds := e.id :: r.embeddedIds }

/-- Whether the stored record for an entry is fresh: a record exists and
its stored hash equals the current hash of the entry content. -/
def freshEntry (hashFn : String → String) (records : List EmbRecord) (e : Entry) : Bool :=
  (records.find? (fun rec => rec.entryId == e.id)).map (fun rec => rec.hash)
    == some (hashFn e.content)

/-- Whether the embedding provider succeeds on an entry content. -/
def embedOk (embed : String → Except String (List Rat)) (e : Entry) : Bool :=
  match embed e.content with
  | .ok _ => true
  | .error _ => false

/-- Per-line effect of the stream loop: none means the `[DONE]` break,
some d means the loop continues with the state grown by d. -/
def lineStep (decode : String → Option ChatStreamResponse) (line : String) :
    Option StreamState :=
  if hasPrefix dataMarker line then
    let data := trimPrefix line dataMarker
    if data = "[DONE]" then none
    else
      match decode data with
      | none => some ⟨"", [], 1⟩
      | some chunk =>
        match chunk.choices with
        | [] => some .init
        | choice :: _ =>
          if choice.delta.content = "" then some .init
          else some ⟨choice.delta.content, [choice.delta.content], 0⟩
  else some .init

/-- Whether a line is the terminal sentinel as processStreamResponse
recognises it. -/
def isDoneLine (l : String) : Bool :=
  hasPrefix dataMarker l && (trimPrefix l dataMarker == "[DONE]")

/-- The JSON payload of the scripted chunk of Scenario D (braces written
as escapes). -/
def chatHiData : String :=
  "\x7b\"choices\":[\x7b\"delta\":\x7b\"content\":\"Hi\"\x7d\x7d]\x7d"

/-- The scripted upstream line carrying the chunk. -/
def chunkHiLine : String := dataMarker ++ chatHiData

/-- The terminal sentinel line. -/
def doneLine : String := "data: [DONE]"

/-- What json.Unmarshal produces for chatHiData: one choice whose delta
content is "Hi", every absent field zero-valued. -/
def chunkHi : ChatStreamResponse := ⟨"", "", 0, "", [⟨0, ⟨"", "Hi"⟩, none⟩]⟩

/-- Concrete decoder for the scripted payload, used to instantiate the
scenario theorems. -/
def decodeHi : String → Option ChatStreamResponse :=
  fun s => if s == chatHiData then some chunkHi else none

/-- Environment of the mid-stream-failure scenario: complete
configuration, one delivered chunk carrying "Hi", then a failing read. -/
def envC1 : ChatEnv :=
  ⟨[⟨"u", "ai.api_key", .vstr "k"⟩, ⟨"u", "ai.base_url", .vstr "http://p"⟩,
      ⟨"u", "ai.chat_model", .vstr "m"⟩],
    fun _ => .vnull, fun _ => none, false, .ok [], [], true,
    ⟨true, 200, "", [chunkHiLine], true⟩, decodeHi⟩

/-- Environment with an empty settings store and a nil defaults table:
every configuration value reads back blank. -/
def envBlank : ChatEnv :=
  ⟨[], fun _ => .vnull, fun _ => none, true, .ok [], [], true,
    ⟨true, 200, "", [], false⟩, fun _ => none⟩

/-- Environment with complete configuration whose similarity search
fails. -/
def envRetrFail : ChatEnv :=
  ⟨[⟨"u", "ai.api_key", .vstr "k"⟩, ⟨"u", "ai.base_url", .vstr "http://p"⟩,
      ⟨"u", "ai.chat_model", .vstr "m"⟩],
    fun _ => .vnull, fun _ => none, true, .error "db down", [], true,
    ⟨true, 200, "", [], false⟩, fun _ => none⟩

/-- A conversation store holding 21 messages of conversation "c" with
creation timestamps 0..20 and contents m0..m20. -/
def msgs21 : List MsgRecord :=
  (List.range 21).map (fun i => ⟨"c", "user", "m" ++ toString i, i⟩)

/-- Environment with complete configuration over the 21-message
conversation store. -/
def envC3 : ChatEnv :=
  ⟨[⟨"u", "ai.api_key", .vstr "k"⟩, ⟨"u", "ai.base_url", .vstr "http://p"⟩,
      ⟨"u", "ai.chat_model", .vstr "m"⟩],
    fun _ => .vnull, fun _ => none, false, .ok [], msgs21, true,
    ⟨true, 200, "", [], false⟩, fun _ => none⟩

/-- A stub transport that always answers 404 with body "nope". -/
def doReq404 : HttpRequest → Option HttpResponse := fun _ => some ⟨404, "nope"⟩

/-- A stub decoder that rejects every body. -/
def mdecNone : String → Option ModelsResponse := fun _ => none

/-! Helper lemmas about the Go-string model and the stream loop. -/

theorem hasPrefix_append (pre s : String) : hasPrefix pre (pre ++ s) = true := by
  rw [hasPrefix, String.data_append, List.isPrefixOf_iff_prefix]
  exact List.prefix_append pre.data s.data

theorem trimPrefix_append (pre s : String) : trimPrefix (pre ++ s) pre = s := by
  rw [trimPrefix, if_pos (hasPrefix_append pre s)]
  exact String.ext (by rw [String.data_append]; exact List.drop_left pre.data s.data)

theorem strAppend_assoc (a b c : String) : a ++ b ++ c = a ++ (b ++ c) :=
  String.ext (by simp [String.data_append])

theorem concatAll_append (a b : List String) :
    concatAll (a ++ b) = concatAll a ++ concatAll b := by
  induction a with
  | nil => rw [List.nil_append, concatAll, String.empty_append]
  | cons s rest ih => rw [List.cons_append, concatAll, concatAll, ih, strAppend_assoc]

theorem StreamState.add_init (st : StreamState) : st.add .init = st := by
  cases st
  simp [StreamState.add, StreamState.init, String.append_empty]

theorem StreamState.init_add (st : StreamState) : StreamState.init.add st = st := by
  cases st
  simp [StreamState.add, StreamState.init, String.empty_append]

theorem StreamState.add_assoc (a b c : StreamState) : (a.add b).add c = a.add (b.add c) := by
  simp [StreamState.add, strAppend_assoc, List.append_assoc, Nat.add_assoc]

theorem processStream_cons (decode : String → Option ChatStreamResponse)
    (line : String) (rest : List String) (st : StreamState) :
    processStream decode (line :: rest) st =
      match lineStep decode line with
      | none => (st, true)
      | some d => processStream decode rest (st.add d) := by
  by_cases h1 : hasPrefix dataMarker line
  · by_cases h2 : trimPrefix line dataMarker = "[DONE]"
    · simp [processStream, lineStep, h1, h2]
    · cases hdec : decode (trimPrefix line dataMarker) with
      | none =>
        simp [processStream, lineStep, h1, h2, hdec, StreamState.add, String.append_empty]
      | some chunk =>
        cases hch : chunk.choices with
        | nil => simp [processStream, lineStep, h1, h2, hdec, hch, StreamState.add_init]
        | cons choice tail =>
          by_cases hc : choice.delta.content = ""
          · simp [processStream, lineStep, h1, h2, hdec, hch, hc, StreamState.add_init]
          · simp [processStream, lineStep, h1, h2, hdec, hch, hc, StreamState.add,
              String.append_empty]
  · simp [processStream, lineStep, h1, StreamState.add_init]

theorem processStream_cons_none (decode : String → Option ChatStreamResponse)
    (line : String) (rest : List String) (st : StreamState)
    (h : lineStep decode line = none) :
    processStream decode (line :: rest) st = (st, true) := by
  rw [processStream_cons, h]

theorem processStream_cons_some (decode : String → Option ChatStreamResponse)
    (line : String) (rest : List String) (st d : StreamState)
    (h : lineStep decode line = some d) :
    processStream decode (line :: rest) st = processStream decode rest (st.add d) := by
  rw [processStream_cons, h]

theorem processStream_shift (decode : String → Option ChatStreamResponse) :
    ∀ (lines : List String) (st : StreamState),
      processStream decode lines st =
        (st.add (processStream decode lines .init).1, (processStream decode lines .init).2)
  | [], st => by simp [processStream, StreamState.add_init]
  | line :: rest, st => by
    cases h : lineStep decode line with
    | none =>
      rw [processStream_cons_none decode line rest st h,
        processStream_cons_none decode line rest .init h]
      simp [StreamState.add_init]
    | some d =>
      rw [processStream_cons_some decode line rest st d h,
        processStream_cons_some decode line rest .init d h,
        processStream_shift decode rest (st.add d),
        processStream_shift decode rest (StreamState.init.add d),
        StreamState.init_add, StreamState.add_assoc]

theorem lineStep_noPrefix (decode : String → Option ChatStreamResponse) (line : String)
    (h : ¬ hasPrefix dataMarker line) : lineStep decode line = some .init := by
  simp [lineStep, h]

theorem lineStep_done (decode : String → Option ChatStreamResponse) (line : String)
    (h1 : hasPrefix dataMarker line) (h2 : trimPrefix line dataMarker = "[DONE]") :
    lineStep decode line = none := by
  simp [lineStep, h1, h2]

theorem lineStep_badDecode (decode : String → Option ChatStreamResponse) (line : String)
    (h1 : hasPrefix dataMarker line) (h2 : trimPrefix line dataMarker ≠ "[DONE]")
    (h3 : decode (trimPrefix line dataMarker) = none) :
    lineStep decode line = some ⟨"", [], 1⟩ := by
  simp [lineStep, h1, h2, h3]

theorem lineStep_noChoices (decode : String → Option ChatStreamResponse) (line : String)
    (chunk : ChatStreamResponse) (h1 : hasPrefix dataMarker line)
    (h2 : trimPrefix line dataMarker ≠ "[DONE]")
    (h3 : decode (trimPrefix line dataMarker) = some chunk) (h4 : chunk.choices = []) :
    lineStep decode line = some .init := by
  simp [lineStep, h1, h2, h3, h4]

theorem lineStep_emptyContent (decode : String → Option ChatStreamResponse) (line : String)
    (chunk : ChatStreamResponse) (choice : StreamChoice) (tail : List StreamChoice)
    (h1 : hasPrefix dataMarker line) (h2 : trimPrefix line dataMarker ≠ "[DONE]")
    (h3 : decode (trimPrefix line dataMarker) = some chunk)
    (h4 : chunk.choices = choice :: tail) (h5 : choice.delta.content = "") :
    lineStep decode line = some .init := by
  simp [lineStep, h1, h2, h3, h4, h5]

theorem lineStep_content (decode : String → Option ChatStreamResponse) (line : String)
    (chunk : ChatStreamResponse) (choice : StreamChoice) (tail : List StreamChoice)
    (h1 : hasPrefix dataMarker line) (h2 : trimPrefix line dataMarker ≠ "[DONE]")
    (h3 : decode (trimPrefix line dataMarker) = some chunk)
    (h4 : chunk.choices = choice :: tail) (h5 : choice.delta.content ≠ "") :
    lineStep decode line =
      some ⟨choice.delta.content, [choice.delta.content], 0⟩ := by
  simp [lineStep, h1, h2, h3, h4, h5]

theorem lineStep_fullResponse_eq (decode : String → Option ChatStreamResponse)
    (line : String) (d : StreamState) (h : lineStep decode line = some d) :
    d.fullResponse = concatAll d.events := by
  simp only [lineStep] at h
  split at h
  · split at h
    · exact absurd h (by simp)
    · split at h
      · cases h
        rfl
      · split at h
        · cases h
          rfl
        · split at h
          · cases h
            rfl
          · cases h
            exact (String.append_empty _).symm
  · cases h
    rfl

theorem processStream_text_eq_events (decode : String → Option ChatStreamResponse) :
    ∀ lines : List String,
      (processStream decode lines .init).1.fullResponse =
        concatAll (processStream decode lines .init).1.events
  | [] => rfl
  | line :: rest => by
    cases h : lineStep decode line with
    | none =>
      rw [processStream_cons_none decode line rest .init h]
      rfl
    | some d =>
      rw [processStream_cons_some decode line rest .init d h, StreamState.init_add,
        processStream_shift decode rest d]
      have hd := lineStep_fullResponse_eq decode line d h
      simp only [StreamState.add, concatAll_append, hd,
        processStream_text_eq_events decode rest]

theorem processStream_events_eq_filter (decode : String → Option ChatStreamResponse) :
    ∀ lines : List String,
      (processStream decode lines .init).1.events =
        (deltaContents decode lines).filter (fun c => !(c == ""))
  | [] => rfl
  | line :: rest => by
    have ih := processStream_events_eq_filter decode rest
    by_cases h1 : hasPrefix dataMarker line
    · by_cases h2 : trimPrefix line dataMarker = "[DONE]"
      · rw [processStream_cons_none decode line rest .init (lineStep_done decode line h1 h2)]
        simp [deltaContents, h1, h2, StreamState.init]
      · cases hdec : decode (trimPrefix line dataMarker) with
        | none =>
          rw [processStream_cons_some decode line rest .init _
              (lineStep_badDecode decode line h1 h2 hdec), StreamState.init_add,
            processStream_shift decode rest ⟨"", [], 1⟩]
          simpa [deltaContents, h1, h2, hdec, StreamState.add] using ih
        | some chunk =>
          cases hch : chunk.choices with
          | nil =>
            rw [processStream_cons_some decode line rest .init _
                (lineStep_noChoices decode line chunk h1 h2 hdec hch), StreamState.init_add]
            simpa [deltaContents, h1, h2, hdec, hch] using ih
          | cons choice tail =>
            by_cases hc : choice.delta.content = ""
            · rw [processStream_cons_some decode line rest .init _
                  (lineStep_emptyContent decode line chunk choice tail h1 h2 hdec hch hc),
                StreamState.init_add]
              simpa [deltaContents, h1, h2, hdec, hch, List.filter_cons, hc] using ih
            · rw [processStream_cons_some decode line rest .init _
                  (lineStep_content decode line chunk choice tail h1 h2 hdec hch hc),
                StreamState.init_add,
                processStream_shift decode rest ⟨choice.delta.content,
                  [choice.delta.content], 0⟩]
              simpa [deltaContents, h1, h2, hdec, hch, List.filter_cons, hc,
                StreamState.add] using ih
    · rw [processStream_cons_some decode line rest .init _ (lineStep_noPrefix decode line h1),
        StreamState.init_add]
      simpa [deltaContents, h1] using ih

/-- C9: for every upstream stream processed by processStreamResponse —
whatever way it ends — the returned accumulated string equals the
in-order concatenation of exactly the content strings forwarded to the
sink, and the forwarded events are exactly the non-empty first-choice
delta contents of the well-formed chunks before the sentinel: the sink
event sequence and the returned text are two views of one token
sequence. -/
theorem c9_text_is_concat_of_sink_events (decode : String → Option ChatStreamResponse)
    (lines : List String) (readErr : Bool) :
    (processStreamResponse decode lines readErr).1.fullResponse =
        concatAll (processStreamResponse decode lines readErr).1.events ∧
      (processStreamResponse decode lines readErr).1.events =
        (deltaContents decode lines).filter (fun c => !(c == "")) := by
  have h1 := processStream_text_eq_events decode lines
  have h2 := processStream_events_eq_filter decode lines
  rw [processStreamResponse]
  split <;> exact ⟨h1, h2⟩

/-- C7: a `data: `-prefixed line whose payload fails to decode is skipped
— the run over the remaining lines is unchanged in text, sink events and
final error — and the malformed chunk is counted by one more warning. -/
theorem c7_malformed_chunk_skipped (decode : String → Option ChatStreamResponse)
    (d : String) (rest : List String) (readErr : Bool)
    (hd : decode d = none) (hne : d ≠ "[DONE]") :
    processStreamResponse decode ((dataMarker ++ d) :: rest) readErr =
      (⟨(processStreamResponse decode rest readErr).1.fullResponse,
        (processStreamResponse decode rest readErr).1.events,
        (processStreamResponse decode rest readErr).1.warnCount + 1⟩,
        (processStreamResponse decode rest readErr).2) := by
  have hstep : lineStep decode (dataMarker ++ d) = some ⟨"", [], 1⟩ := by
    rw [lineStep, if_pos (hasPrefix_append dataMarker d)]
    simp only [trimPrefix_append, if_neg hne, hd]
  rw [processStreamResponse, processStreamResponse,
    processStream_cons_some decode (dataMarker ++ d) rest .init _ hstep,
    StreamState.init_add, processStream_shift decode rest ⟨"", [], 1⟩]
  cases hflag : (processStream decode rest .init).2 <;>
    cases readErr <;>
      simp [hflag, StreamState.add, String.empty_append, Nat.add_comm]

/-- C4: on the upstream stream consisting of exactly the scripted chunk
line followed by the sentinel, stream processing accumulates fullText
"Hi", forwards exactly one content event "Hi" to the sink, warns about
nothing, and ends without error — for any chunk decoder that decodes the
scripted payload the way json.Unmarshal does. -/
theorem c4_scripted_stream_hi (decode : String → Option ChatStreamResponse)
    (readErr : Bool) (h : decode chatHiData = some chunkHi) :
    processStreamResponse decode [chunkHiLine, doneLine] readErr =
      (⟨"Hi", ["Hi"], 0⟩, none) := by
  have hstep : lineStep decode chunkHiLine = some ⟨"Hi", ["Hi"], 0⟩ := by
    rw [chunkHiLine, lineStep, if_pos (hasPrefix_append dataMarker chatHiData)]
    simp only [trimPrefix_append]
    rw [if_neg (by decide), h]
    rfl
  have hdone : lineStep decode doneLine = none := by
    rw [lineStep]
    rfl
  rw [processStreamResponse,
    processStream_cons_some decode chunkHiLine [doneLine] .init _ hstep,
    StreamState.init_add,
    processStream_cons_none decode doneLine [] _ hdone]
  rfl

/-- Witness for C4: the scenario evaluated at the concrete decoder. -/
theorem c4_scripted_stream_hi_witness :
    processStreamResponse decodeHi [chunkHiLine, doneLine] false =
      (⟨"Hi", ["Hi"], 0⟩, none) :=
  c4_scripted_stream_hi decodeHi false (by simp [decodeHi])

/-- Witness for C7: a single malformed chunk line under a decoder that
rejects everything yields an empty, errorless run with one warning. -/
theorem c7_malformed_chunk_skipped_witness :
    processStreamResponse (fun _ => none) [dataMarker ++ "bad"] false =
      (⟨"", [], 1⟩, none) :=
  c7_malformed_chunk_skipped (fun _ => none) "bad" [] false rfl (by decide)

theorem lineStep_isSome (decode : String → Option ChatStreamResponse) (line : String)
    (h : isDoneLine line = false) : ∃ d, lineStep decode line = some d := by
  by_cases h1 : hasPrefix dataMarker line
  · have h2 : trimPrefix line dataMarker ≠ "[DONE]" := by
      intro heq
      rw [isDoneLine, h1] at h
      simp [heq] at h
    cases hdec : decode (trimPrefix line dataMarker) with
    | none => exact ⟨_, lineStep_badDecode decode line h1 h2 hdec⟩
    | some chunk =>
      cases hch : chunk.choices with
      | nil => exact ⟨_, lineStep_noChoices decode line chunk h1 h2 hdec hch⟩
      | cons choice tail =>
        by_cases hc : choice.delta.content = ""
        · exact ⟨_, lineStep_emptyContent decode line chunk choice tail h1 h2 hdec hch hc⟩
        · exact ⟨_, lineStep_content decode line chunk choice tail h1 h2 hdec hch hc⟩
  · exact ⟨_, lineStep_noPrefix decode line h1⟩

theorem processStream_no_done (decode : String → Option ChatStreamResponse) :
    ∀ lines : List String, (∀ l ∈ lines, isDoneLine l = false) →
      ∀ st, (processStream decode lines st).2 = false
  | [], _, st => rfl
  | line :: rest, h, st => by
    obtain ⟨d, hd⟩ := lineStep_isSome decode line (h line (List.mem_cons_self line rest))
    rw [processStream_cons_some decode line rest st d hd]
    exact processStream_no_done decode rest (fun l hl => h l (List.mem_cons_of_mem _ hl)) _

theorem streamInterrupted_partial (decode : String → Option ChatStreamResponse)
    (lines : List String) (h : ∀ l ∈ lines, isDoneLine l = false) :
    processStreamResponse decode lines true =
      ((processStream decode lines .init).1, some .streamInterrupted) := by
  rw [processStreamResponse]
  simp [processStream_no_done decode lines h .init]

theorem callStreamingAPI_requests (decode : String → Option ChatStreamResponse)
    (http : ProviderHttp) (baseURL apiKey model : String) (messages : List ChatMessage) :
    (callStreamingAPI decode http baseURL apiKey model messages).requests =
      [⟨trimSuffix baseURL "/" ++ "/v1/chat/completions", "Bearer " ++ apiKey,
        ⟨model, messages, true⟩⟩] := by
  rw [callStreamingAPI]
  split
  · rfl
  · split <;> rfl

theorem callStreamingAPI_ok (decode : String → Option ChatStreamResponse)
    (http : ProviderHttp) (baseURL apiKey model : String) (messages : List ChatMessage)
    (htr : http.transportOk = true) (hst : http.status = 200) :
    callStreamingAPI decode http baseURL apiKey model messages =
      ⟨(processStreamResponse decode http.streamLines http.readErr).1.fullResponse,
        (processStreamResponse decode http.streamLines http.readErr).2,
        (processStreamResponse decode http.streamLines http.readErr).1.events,
        (processStreamResponse decode http.streamLines http.readErr).1.warnCount,
        [⟨trimSuffix baseURL "/" ++ "/v1/chat/completions", "Bearer " ++ apiKey,
          ⟨model, messages, true⟩⟩]⟩ := by
  simp [callStreamingAPI, htr, hst]

/-- C1 amended: when the underlying read fails mid-stream (no sentinel
among the delivered lines), the stream layer — processStreamResponse and
hence callStreamingAPI — does return the partial accumulated text (the
concatenation of the events already forwarded to the sink) together with
the StreamInterrupted-kind error, but StreamChat discards that partial
text and returns the empty string and no referenced entries alongside the
error. -/
theorem c1_stream_interrupted_partial_discarded (env : ChatEnv)
    (userID conversationID message : String)
    (ha : (ConfigService.GetString env.getDefault env.jdec env.settings userID
      "ai.api_key").1 ≠ "")
    (hb : (ConfigService.GetString env.getDefault env.jdec env.settings userID
      "ai.base_url").1 ≠ "")
    (hc : (ConfigService.GetString env.getDefault env.jdec env.settings userID
      "ai.chat_model").1 ≠ "")
    (htr : env.http.transportOk = true) (hst : env.http.status = 200)
    (hre : env.http.readErr = true)
    (hnd : ∀ l ∈ env.http.streamLines, isDoneLine l = false) :
    (processStreamResponse env.decode env.http.streamLines true).1.fullResponse =
        concatAll (processStreamResponse env.decode env.http.streamLines true).1.events
      ∧ (processStreamResponse env.decode env.http.streamLines true).2 =
          some .streamInterrupted
      ∧ (StreamChat env userID conversationID message).error = some .streamInterrupted
      ∧ (StreamChat env userID conversationID message).fullText = ""
      ∧ (StreamChat env userID conversationID message).referenced = []
      ∧ (StreamChat env userID conversationID message).events =
          (processStreamResponse env.decode env.http.streamLines true).1.events := by
  have hpart := streamInterrupted_partial env.decode env.http.streamLines hnd
  have hcall := callStreamingAPI_ok env.decode env.http
    (ConfigService.GetString env.getDefault env.jdec env.settings userID "ai.base_url").1
    (ConfigService.GetString env.getDefault env.jdec env.settings userID "ai.api_key").1
    (ConfigService.GetString env.getDefault env.jdec env.settings userID "ai.chat_model").1
  refine ⟨(c9_text_is_concat_of_sink_events env.decode env.http.streamLines true).1,
    by rw [hpart], ?_, ?_, ?_, ?_⟩ <;>
  · simp only [StreamChat, if_neg ha, if_neg hb, if_neg hc]
    rw [hcall _ htr hst, hre, hpart]

/-- Counterexample for C1 as stated: on a stream that accumulated "Hi"
before the read failed, StreamChat returns the empty string — not the
partial accumulated text — alongside the StreamInterrupted-kind error
(the sink did receive the partial token). -/
theorem c1_counterexample_empty_not_partial :
    (processStreamResponse decodeHi [chunkHiLine] true).1.fullResponse = "Hi"
      ∧ (StreamChat envC1 "u" "c" "q").error = some .streamInterrupted
      ∧ (StreamChat envC1 "u" "c" "q").fullText = ""
      ∧ (StreamChat envC1 "u" "c" "q").events = ["Hi"]
      ∧ ("" : String) ≠ "Hi" := by
  refine ⟨?_, ?_, ?_, ?_, by decide⟩ <;> decide

/-- Witness for the amended C1 at the concrete environment. -/
theorem c1_stream_interrupted_partial_discarded_witness :
    (processStreamResponse envC1.decode envC1.http.streamLines true).2 =
        some .streamInterrupted
      ∧ (StreamChat envC1 "u" "c" "q").error = some .streamInterrupted
      ∧ (StreamChat envC1 "u" "c" "q").fullText = "" := by
  have h := c1_stream_interrupted_partial_discarded envC1 "u" "c" "q"
    (by decide) (by decide) (by decide) rfl rfl rfl (by decide)
  exact ⟨h.2.1, h.2.2.1, h.2.2.2.1⟩

/-- C2: when any of the three required AI settings reads back blank,
StreamChat fails with a ConfigurationMissing-kind error having issued no
provider request and no retrieval call. -/
theorem c2_blank_config_fails_before_any_call (env : ChatEnv)
    (userID conversationID message : String)
    (h : (ConfigService.GetString env.getDefault env.jdec env.settings userID
        "ai.api_key").1 = ""
      ∨ (ConfigService.GetString env.getDefault env.jdec env.settings userID
        "ai.base_url").1 = ""
      ∨ (ConfigService.GetString env.getDefault env.jdec env.settings userID
        "ai.chat_model").1 = "") :
    (∃ f, (StreamChat env userID conversationID message).error = some (.configMissing f))
      ∧ (StreamChat env userID conversationID message).requests = []
      ∧ (StreamChat env userID conversationID message).retrievalCalls = 0 := by
  by_cases ha : (ConfigService.GetString env.getDefault env.jdec env.settings userID
      "ai.api_key").1 = ""
  · refine ⟨⟨"ai.api_key", ?_⟩, ?_, ?_⟩ <;> simp [StreamChat, ha]
  · by_cases hb : (ConfigService.GetString env.getDefault env.jdec env.settings userID
        "ai.base_url").1 = ""
    · refine ⟨⟨"ai.base_url", ?_⟩, ?_, ?_⟩ <;> simp [StreamChat, ha, hb]
    · have hc : (ConfigService.GetString env.getDefault env.jdec env.settings userID
          "ai.chat_model").1 = "" := by
        rcases h with h | h | h
        · exact absurd h ha
        · exact absurd h hb
        · exact h
      refine ⟨⟨"ai.chat_model", ?_⟩, ?_, ?_⟩ <;> simp [StreamChat, ha, hb, hc]

/-- Witness for C2 at the blank environment. -/
theorem c2_blank_config_fails_before_any_call_witness :
    (∃ f, (StreamChat envBlank "u" "c" "hi").error = some (.configMissing f))
      ∧ (StreamChat envBlank "u" "c" "hi").requests = []
      ∧ (StreamChat envBlank "u" "c" "hi").retrievalCalls = 0 :=
  c2_blank_config_fails_before_any_call envBlank "u" "c" "hi" (Or.inl rfl)

/-- C6: with complete configuration, a failing similarity search does not
abort StreamChat — the retrieval was attempted, the provider is still
invoked exactly once, every issued request opens with a system prompt
built for zero retrieved entries (which is the preamble followed by the
explicit no-relevant-entries notice), and the referenced-entry list comes
back empty. -/
theorem StreamChat_configured_requests (env : ChatEnv)
    (userID conversationID message : String)
    (ha : (ConfigService.GetString env.getDefault env.jdec env.settings userID
      "ai.api_key").1 ≠ "")
    (hb : (ConfigService.GetString env.getDefault env.jdec env.settings userID
      "ai.base_url").1 ≠ "")
    (hc : (ConfigService.GetString env.getDefault env.jdec env.settings userID
      "ai.chat_model").1 ≠ "") :
    (StreamChat env userID conversationID message).requests =
        [⟨trimSuffix (ConfigService.GetString env.getDefault env.jdec env.settings userID
            "ai.base_url").1 "/" ++ "/v1/chat/completions",
          "Bearer " ++ (ConfigService.GetString env.getDefault env.jdec env.settings userID
            "ai.api_key").1,
          ⟨(ConfigService.GetString env.getDefault env.jdec env.settings userID
              "ai.chat_model").1,
            (ChatMessage.mk "system" (buildSystemPrompt
                (if env.hasEmbedding then
                  match env.queryResult with
                  | .error _ => []
                  | .ok ds => ds
                  else [])) ::
              (if env.historyOk then GetConversationHistory env.msgStore conversationID 20
                else [])) ++ [ChatMessage.mk "user" message],
            true⟩⟩]
      ∧ (StreamChat env userID conversationID message).retrievalCalls =
          (if env.hasEmbedding then 1 else 0) := by
  simp only [StreamChat, if_neg ha, if_neg hb, if_neg hc]
  constructor
  · split <;> rw [callStreamingAPI_requests]
  · split <;> rfl

/-- C6: with complete configuration, a failing similarity search does not
abort StreamChat — the retrieval was attempted, the provider is still
invoked exactly once, every issued request opens with a system prompt
built for zero retrieved entries (which is the preamble followed by the
explicit no-relevant-entries notice), and the referenced-entry list comes
back empty. -/
theorem c6_retrieval_failure_degrades (env : ChatEnv)
    (userID conversationID message e : String)
    (ha : (ConfigService.GetString env.getDefault env.jdec env.settings userID
      "ai.api_key").1 ≠ "")
    (hb : (ConfigService.GetString env.getDefault env.jdec env.settings userID
      "ai.base_url").1 ≠ "")
    (hc : (ConfigService.GetString env.getDefault env.jdec env.settings userID
      "ai.chat_model").1 ≠ "")
    (hemb : env.hasEmbedding = true)
    (hq : env.queryResult = .error e) :
    (StreamChat env userID conversationID message).retrievalCalls = 1
      ∧ (StreamChat env userID conversationID message).requests.length = 1
      ∧ (∀ req ∈ (StreamChat env userID conversationID message).requests,
          req.body.messages.head? =
            some (ChatMessage.mk "system" (buildSystemPrompt [])))
      ∧ buildSystemPrompt [] = promptPreamble ++ noEntriesNotice
      ∧ (StreamChat env userID conversationID message).referenced = [] := by
  have hbp : buildSystemPrompt [] = promptPreamble ++ noEntriesNotice := by
    rw [buildSystemPrompt]
    rfl
  obtain ⟨hreqs, hret⟩ :=
    StreamChat_configured_requests env userID conversationID message ha hb hc
  refine ⟨by rw [hret, hemb]; simp, by rw [hreqs]; rfl, ?_, hbp, ?_⟩
  · intro req hmem
    rw [hreqs] at hmem
    rw [List.mem_singleton] at hmem
    subst hmem
    simp [hemb, hq]
  · simp only [StreamChat, if_neg ha, if_neg hb, if_neg hc]
    split
    · rfl
    · simp [hemb, hq]

/-- Witness for C6 at the concrete failing-retrieval environment. -/
theorem c6_retrieval_failure_degrades_witness :
    (StreamChat envRetrFail "u" "c" "q").retrievalCalls = 1
      ∧ (StreamChat envRetrFail "u" "c" "q").requests.length = 1
      ∧ (∀ req ∈ (StreamChat envRetrFail "u" "c" "q").requests,
          req.body.messages.head? =
            some (ChatMessage.mk "system" (buildSystemPrompt [])))
      ∧ buildSystemPrompt [] = promptPreamble ++ noEntriesNotice
      ∧ (StreamChat envRetrFail "u" "c" "q").referenced = [] :=
  c6_retrieval_failure_degrades envRetrFail "u" "c" "q" "db down"
    (by decide) (by decide) (by decide) rfl rfl

/-- Counterexample for C3 as stated: on a 21-message conversation the
message list StreamChat sends contains the oldest message m0 and omits
the newest message m20 — the prior turns are not the 20 most recent
messages. -/
theorem c3_counterexample_oldest_sent_newest_omitted :
    (∀ req ∈ (StreamChat envC3 "u" "c" "q").requests,
        "m0" ∈ req.body.messages.map ChatMessage.content
          ∧ "m20" ∉ req.body.messages.map ChatMessage.content)
      ∧ (StreamChat envC3 "u" "c" "q").requests ≠ [] := by
  decide

/-- C3 amended: StreamChat sends the system prompt first, then up to the
FIRST 20 messages of the conversation — the sort is ascending by creation
timestamp and the limit is applied to that ascending order, so the 20
OLDEST messages are kept (in ascending creation order) and any more
recent message is omitted — then the new user message last. -/
theorem c3_amended_history_is_oldest_twenty (env : ChatEnv)
    (userID conversationID message : String)
    (ha : (ConfigService.GetString env.getDefault env.jdec env.settings userID
      "ai.api_key").1 ≠ "")
    (hb : (ConfigService.GetString env.getDefault env.jdec env.settings userID
      "ai.base_url").1 ≠ "")
    (hc : (ConfigService.GetString env.getDefault env.jdec env.settings userID
      "ai.chat_model").1 ≠ "")
    (hh : env.historyOk = true) :
    (∀ req ∈ (StreamChat env userID conversationID message).requests,
        ∃ sysMsg : ChatMessage, sysMsg.role = "system" ∧
          req.body.messages =
            (sysMsg :: GetConversationHistory env.msgStore conversationID 20) ++
              [ChatMessage.mk "user" message])
      ∧ GetConversationHistory env.msgStore conversationID 20 =
          ((List.insertionSort createdLE (env.msgStore.filter
              (fun m => m.conversation == conversationID))).take 20).map
            (fun m => ChatMessage.mk m.role m.content)
      ∧ List.Sorted createdLE
          ((List.insertionSort createdLE (env.msgStore.filter
              (fun m => m.conversation == conversationID))).take 20)
      ∧ (∀ m ∈ env.msgStore.filter (fun m => m.conversation == conversationID),
          m ∉ (List.insertionSort createdLE (env.msgStore.filter
              (fun m => m.conversation == conversationID))).take 20 →
          ∀ x ∈ (List.insertionSort createdLE (env.msgStore.filter
              (fun m => m.conversation == conversationID))).take 20,
            x.created ≤ m.created) := by
  obtain ⟨hreqs, _⟩ :=
    StreamChat_configured_requests env userID conversationID message ha hb hc
  have hsorted := List.sorted_insertionSort createdLE
    (env.msgStore.filter (fun m => m.conversation == conversationID))
  have hsplit := List.take_append_drop 20 (List.insertionSort createdLE
    (env.msgStore.filter (fun m => m.conversation == conversationID)))
  refine ⟨?_, rfl, ?_, ?_⟩
  · intro req hmem
    rw [hreqs, List.mem_singleton] at hmem
    subst hmem
    exact ⟨ChatMessage.mk "system" (buildSystemPrompt
        (if env.hasEmbedding then
          match env.queryResult with
          | .error _ => []
          | .ok ds => ds
          else [])), rfl, by simp [hh]⟩
  · exact List.Pairwise.sublist (List.take_sublist 20 _) hsorted
  · intro m hm hnotsel x hx
    have hpw : List.Pairwise createdLE
        ((List.insertionSort createdLE (env.msgStore.filter
            (fun m => m.conversation == conversationID))).take 20 ++
          (List.insertionSort createdLE (env.msgStore.filter
            (fun m => m.conversation == conversationID))).drop 20) := by
      rw [hsplit]
      exact hsorted
    have hmem2 : m ∈ List.insertionSort createdLE
        (env.msgStore.filter (fun m => m.conversation == conversationID)) :=
      ((List.perm_insertionSort createdLE _).mem_iff).mpr hm
    rw [← hsplit] at hmem2
    rcases List.mem_append.mp hmem2 with h | h
    · exact absurd h hnotsel
    · exact (List.pairwise_append.mp hpw).2.2 x hx m h

/-- Witness for the amended C3: at the 21-message store the selected
prior turns are sorted ascending by creation timestamp. -/
theorem c3_amended_history_is_oldest_twenty_witness :
    List.Sorted createdLE
      ((List.insertionSort createdLE (envC3.msgStore.filter
          (fun m => m.conversation == "c"))).take 20) :=
  (c3_amended_history_is_oldest_twenty envC3 "u" "c" "q"
    (by decide) (by decide) (by decide) rfl).2.2.1

/-- C5: the incremental build invokes the embedding provider exactly for
the entries with no stored record or a stale stored hash — an entry whose
stored content-hash equals the current hash contributes to the unchanged
counter and to no provider call — and upserts exactly the stale entries
the provider succeeded on (processed), counting the provider failures as
failed. -/
theorem c5_incremental_skips_fresh_entries (hashFn : String → String)
    (embed : String → Except String (List Rat)) (records : List EmbRecord) :
    ∀ entries : List Entry,
      (BuildIncremental hashFn embed records entries).embeddedIds =
          (entries.filter (fun e => !(freshEntry hashFn records e))).map Entry.id
        ∧ (BuildIncremental hashFn embed records entries).unchanged =
          (entries.filter (fun e => freshEntry hashFn records e)).length
        ∧ (BuildIncremental hashFn embed records entries).upsertedIds =
          (entries.filter (fun e =>
            !(freshEntry hashFn records e) && embedOk embed e)).map Entry.id
        ∧ (BuildIncremental hashFn embed records entries).processed =
          (entries.filter (fun e =>
            !(freshEntry hashFn records e) && embedOk embed e)).length
        ∧ (BuildIncremental hashFn embed records entries).failed =
          (entries.filter (fun e =>
            !(freshEntry hashFn records e) && !(embedOk embed e))).length
  | [] => ⟨rfl, rfl, rfl, rfl, rfl⟩
  | e :: rest => by
    obtain ⟨ih1, ih2, ih3, ih4, ih5⟩ :=
      c5_incremental_skips_fresh_entries hashFn embed records rest
    by_cases hf : ((records.find? (fun rec => rec.entryId == e.id)).map
        (fun rec => rec.hash)) = some (hashFn e.content)
    · simp [BuildIncremental, freshEntry, hf, ih1, ih2, ih3, ih4, ih5, List.filter_cons]
    · cases hemb : embed e.content with
      | ok v =>
        simp [BuildIncremental, freshEntry, hf, hemb, embedOk,
          ih1, ih2, ih3, ih4, ih5, List.filter_cons]
      | error err =>
        simp [BuildIncremental, freshEntry, hf, hemb, embedOk,
          ih1, ih2, ih3, ih4, ih5, List.filter_cons]

theorem trimSuffix_append_slash (b : String) : trimSuffix (b ++ "/") "/" = b := by
  rw [trimSuffix]
  have hsuf : ("/" : String).data.isSuffixOf (b ++ "/").data = true := by
    rw [String.data_append, List.isSuffixOf_iff_suffix]
    exact List.suffix_append b.data _
  rw [if_pos hsuf]
  apply String.ext
  have hd : ("/" : String).data = [Char.ofNat 47] := rfl
  simp [String.data_append, hd, List.take_left]

/-- C8: fetchModels targets the trailing-slash-normalized base URL joined
with /v1/models under bearer authorization; a failing transport yields a
transport error, a non-200 response yields an error carrying the status
code and the response body, and a 200 response with a decodable body
yields the decoded model list. -/
theorem c8_fetchModels_contract (doReq : HttpRequest → Option HttpResponse)
    (mdec : String → Option ModelsResponse) (baseURL apiKey : String) :
    (modelsRequest baseURL apiKey).url = trimSuffix baseURL "/" ++ "/v1/models"
      ∧ (modelsRequest baseURL apiKey).bearer = "Bearer " ++ apiKey
      ∧ (∀ b : String, trimSuffix (b ++ "/") "/" = b)
      ∧ (doReq (modelsRequest baseURL apiKey) = none →
          fetchModels doReq mdec baseURL apiKey = .error .transportFail)
      ∧ (∀ resp, doReq (modelsRequest baseURL apiKey) = some resp → resp.status ≠ 200 →
          fetchModels doReq mdec baseURL apiKey = .error (.badStatus resp.status resp.body))
      ∧ (∀ resp mr, doReq (modelsRequest baseURL apiKey) = some resp → resp.status = 200 →
          mdec resp.body = some mr → fetchModels doReq mdec baseURL apiKey = .ok mr.data) := by
  refine ⟨rfl, rfl, trimSuffix_append_slash, ?_, ?_, ?_⟩
  · intro h
    rw [fetchModels, h]
  · intro resp h hst
    rw [fetchModels, h]
    simp [hst]
  · intro resp mr h hst hm
    rw [fetchModels, h]
    simp [hst, hm]

/-- Witness for C8: the 404 answer surfaces as an error carrying status
and body. -/
theorem c8_fetchModels_contract_witness :
    fetchModels doReq404 mdecNone "http://x/" "k" = .error (.badStatus 404 "nope") :=
  (c8_fetchModels_contract doReq404 mdecNone "http://x/" "k").2.2.2.2.1
    ⟨404, "nope"⟩ rfl (by decide)

/-- C10: ConfigService.Get and ConfigService.GetString always report a
nil error; a missing (user, key) row makes Get fall back to the defaults
table; and GetString collapses everything that is not a string — a nil
value, a raw value the JSON decoder rejects, or any other dynamic type —
to the empty string, so missing or malformed configuration is observable
only as an empty value. -/
theorem c10_config_reads_never_error (getDefault : String → GoValue)
    (jdec : String → Option String) (store : List SettingRecord) (userId key : String) :
    (ConfigService.Get getDefault store userId key).2 = none
      ∧ (ConfigService.GetString getDefault jdec store userId key).2 = none
      ∧ (findFirstSetting store userId key = none →
          (ConfigService.Get getDefault store userId key).1 = getDefault key)
      ∧ (ConfigService.GetString getDefault jdec store userId key).1 =
          (match (ConfigService.Get getDefault store userId key).1 with
            | .vstr s => s
            | .vraw raw => (jdec raw).getD ""
            | _ => "")
      ∧ (findFirstSetting store userId key = none → getDefault key = .vnull →
          (ConfigService.GetString getDefault jdec store userId key).1 = "") := by
  cases hfind : findFirstSetting store userId key with
  | none =>
    refine ⟨?_, ?_, ?_, ?_, ?_⟩ <;>
      cases hv : getDefault key <;>
        simp [ConfigService.Get, ConfigService.GetString, hfind, hv] <;>
          cases hj : jdec _ <;> simp [hj]
  | some r =>
    refine ⟨?_, ?_, ?_, ?_, ?_⟩ <;>
      cases hv : r.value <;>
        simp [ConfigService.Get, ConfigService.GetString, hfind, hv] <;>
          cases hj : jdec _ <;> simp [hj]

/-- Witness for C10: on an empty store with a nil defaults table, reads
report no error and the string value is empty. -/
theorem c10_config_reads_never_error_witness :
    (ConfigService.Get (fun _ => GoValue.vnull) [] "u" "ai.api_key").2 = none
      ∧ (ConfigService.GetString (fun _ => GoValue.vnull) (fun _ => none) []
          "u" "ai.api_key").1 = "" := by
  have h := c10_config_reads_never_error (fun _ => GoValue.vnull) (fun _ => none)
    [] "u" "ai.api_key"
  exact ⟨h.1, h.2.2.2.2 rfl rfl⟩

end Diaria
